import Mathlib

/-!
Verification of the okta-mcp-server command dispatcher, search strategy
selector, and onboarding orchestrator.

The development is a shallow embedding of the TypeScript sources:
- `src/index.ts` (two drafts of the tool-call dispatcher),
- `src/tools/users.ts` (PII masking, `find_users_by_attribute`),
- the onboarding module (`bulk_user_import`, `assign_users_to_groups`,
  `provision_applications`, `run_onboarding_workflow`).

The remote Okta directory is modelled as an oracle (`Dir`) of pure response
functions; a JavaScript `throw` is modelled as `Except.error`, and the
sequence of remote calls a piece of code performs is made observable as a
`List DirCall` trace where a claim needs it.
-/

namespace OktaMCP

/-- Raw JSON-ish argument values as delivered by the carrying protocol. -/
inductive JVal where
  | str (s : String)
  | num (n : Int)
  | boolean (b : Bool)
  | null
deriving DecidableEq, Repr

/-- Untyped key-value argument mapping of an invocation request. -/
abbrev Args := List (String × JVal)

/-- Lookup of a key in a raw argument mapping; `none` models a JS `undefined` field. -/
def lookupArg (args : Args) (k : String) : Option JVal :=
  match args with
  | [] => none
  | (k', v) :: rest => if k' = k then some v else lookupArg rest k

/-- One content block of an MCP tool result (`{ type: "text", text }`). -/
structure ContentBlock where
  text : String
deriving DecidableEq, Repr

/-- Result object returned through the protocol (`{ content, isError }`).
JS results that omit `isError` are modelled with `isError = false`. -/
structure InvocationResult where
  content : List ContentBlock
  isError : Bool := false
deriving DecidableEq, Repr

/-- Error-shaped result, as built by the catch blocks in the source. -/
def errorResult (msg : String) : InvocationResult :=
  { content := [⟨msg⟩], isError := true }

/-- Plain text result with `isError` absent (false). -/
def textResult (msg : String) : InvocationResult :=
  { content := [⟨msg⟩], isError := false }

/-- Value of a profile attribute: JS `null` or a string.  An attribute that is
absent from the profile object (JS `undefined`) is modelled by a failed lookup. -/
inductive AttrVal where
  | null
  | str (s : String)
deriving DecidableEq, Repr

/-- User profile: mapping from attribute names to values (`§9` of the spec
models the entity record as a key-to-optional-value mapping). -/
abbrev Profile := List (String × AttrVal)

/-- Lookup of an attribute on a profile; `none` models JS `undefined`. -/
def profLookup (p : Profile) (k : String) : Option AttrVal :=
  match p with
  | [] => none
  | (k', v) :: rest => if k' = k then some v else profLookup rest k

/-- String-valued, truthy attribute access: JS `userAttributeValue &&` guard
(undefined, null and the empty string are all falsy). -/
def truthyAttr (v : Option AttrVal) : Option String :=
  match v with
  | some (AttrVal.str s) => if s = "" then none else some s
  | _ => none

/-- Full user record as returned by `userApi.getUser` (`profile = none` models
the `!fullUser?.profile` / `!user.profile` falsy check in the source). -/
structure FullUser where
  id : String
  status : String
  profile : Option Profile
deriving DecidableEq, Repr

/-- Remote call events, used to make `performs no directory call` provable. -/
inductive DirCall where
  | listUsers (search : Option String) (lim : Nat)
  | getUser (uid : String)
  | createUser (email : String)
  | activateUser (uid : String) (sendEmail : Bool)
  | assignUserToGroup (gid uid : String)
  | assignUserToApplication (appId uid : String)
deriving DecidableEq, Repr

/-- The Directory Client capability surface consumed by the embedded code
(`§6` of the spec), as a pure response oracle: `Except.error` models a thrown
failure of the remote call. -/
structure Dir where
  listUsers : Option String → Nat → Except String (List String)
  getUser : String → Except String FullUser
  createUser : List (String × String) → Except String String
  activateUser : String → Bool → Except String Unit
  assignUserToGroup : String → String → Except String Unit
  assignUserToApplication : String → String → Except String Unit

/-- Directory oracle on which every remote call fails; used as a base for
concrete test directories. -/
def dirBase : Dir where
  listUsers := fun _ _ => Except.error "unavailable"
  getUser := fun _ => Except.error "unavailable"
  createUser := fun _ => Except.error "unavailable"
  activateUser := fun _ _ => Except.error "unavailable"
  assignUserToGroup := fun _ _ => Except.error "unavailable"
  assignUserToApplication := fun _ _ => Except.error "unavailable"

/-- Character-wise lower-casing, mirroring JS `toLowerCase` on ASCII data
(written over the character list so that it evaluates in the kernel). -/
def strToLower (s : String) : String :=
  String.mk (s.data.map Char.toLower)

/-- Leading-match test on character lists: the second list starts with the
first. -/
def charsLead : List Char → List Char → Bool
  | [], _ => true
  | _ :: _, [] => false
  | a :: pat, b :: s => a == b && charsLead pat s

/-- Occurrence test on character lists: the first list occurs inside the
second. -/
def charsContain : List Char → List Char → Bool
  | pat, [] => pat.isEmpty
  | pat, c :: rest => charsLead pat (c :: rest) || charsContain pat rest

/-- Substring test mirroring JS `String.prototype.includes`. -/
def strContains (s pat : String) : Bool :=
  charsContain pat.data s.data

/-- JS `n || d` on numbers: `0` is falsy and replaced by the default. -/
def jsOrNat (n d : Nat) : Nat :=
  if n = 0 then d else n

/-- JS `s || d` on an optional string: `undefined` and `""` are falsy. -/
def jsOr (o : Option String) (d : String) : String :=
  match o with
  | some s => if s = "" then d else s
  | none => d

/-- JS falsy test for an optional string field (`!userData.email`). -/
def falsy (o : Option String) : Bool :=
  match o with
  | some s => s = ""
  | none => true

/-! ## Command dispatcher (`src/index.ts`)

A handler takes raw arguments and either returns a result or raises; it also
reports the trace of remote directory calls it performed. -/

/-- Tool handler: raw args to (result or raise, directory-call trace). -/
abbrev Handler := Args → Except String InvocationResult × List DirCall

/-- First-draft dispatcher (`startServer`, `index.ts` lines 38-65): an unknown
tool name is thrown inside the try block and the single catch converts any
failure into an error-shaped result `Error: <message>`. -/
def dispatch (handlers : String → Option Handler) (name : String) (args : Args) :
    InvocationResult × List DirCall :=
  match handlers name with
  | none => (errorResult ("Error: Unknown tool: " ++ name), [])
  | some h =>
    match h args with
    | (Except.ok r, t) => (r, t)
    | (Except.error e, t) => (errorResult ("Error: " ++ e), t)

/-- Second-draft dispatcher (`index.ts` lines 752-768): the catch block does
not build a result object but re-raises
`Error executing tool <name>: <message>`. -/
def dispatchDraft2 (handlers : String → Option Handler) (name : String) (args : Args) :
    Except String InvocationResult :=
  match handlers name with
  | none => Except.error ("Error executing tool " ++ name ++ ": Unknown tool: " ++ name)
  | some h =>
    match (h args).1 with
    | Except.ok r => Except.ok r
    | Except.error e => Except.error ("Error executing tool " ++ name ++ ": " ++ e)

/-- Validation of the `get_user` arguments.  Models the zod schema
`userSchemas.getUser = z.object({ userId: z.string().min(1, "User ID is required") })`:
a parse failure throws a ZodError whose message names the offending field
(the issue path) and the cause. -/
def zodParseGetUser (args : Args) : Except String String :=
  match lookupArg args "userId" with
  | none => Except.error "invalid input at userId: Required"
  | some (JVal.str s) =>
    if s.length ≥ 1 then Except.ok s
    else Except.error "invalid input at userId: User ID is required"
  | some _ => Except.error "invalid input at userId: Expected string"

/-- Abbreviated rendering of the user-details template of the `get_user`
handler (the full multi-line template carries no verified content). -/
def formatUserText (u : FullUser) : String :=
  "• User Details:\n  ID: " ++ u.id ++ "\n  Status: " ++ u.status

/-- Handler of the `get_user` tool (`users.ts` lines 343-422): zod validation
runs before the try block, so its failure is raised out of the handler; every
failure inside the try block is converted to an error result locally. -/
def get_user_handler (dir : Dir) : Handler := fun args =>
  match zodParseGetUser args with
  | Except.error e => (Except.error e, [])
  | Except.ok userId =>
    match dir.getUser userId with
    | Except.error e =>
      (Except.ok (errorResult ("Failed to get user: " ++ e)), [DirCall.getUser userId])
    | Except.ok u =>
      match u.profile with
      | none =>
        (Except.ok (errorResult "Failed to get user: User profile is undefined"),
          [DirCall.getUser userId])
      | some _ =>
        (Except.ok (textResult (formatUserText u)), [DirCall.getUser userId])

/-- Registry of tool handlers (`HANDLERS` in `tools/index.ts`), restricted to
the handler the claims exercise. -/
def HANDLERS (dir : Dir) : String → Option Handler := fun name =>
  if name = "get_user" then some (get_user_handler dir) else none

/-! ## PII masking (`users.ts` lines 103-131) -/

/-- Fixed list of personally identifying attribute names, verbatim from the
source (note the camelCase spelling of most entries). -/
def piiAttributes : List String :=
  ["email", "login", "firstName", "lastName", "displayName", "nickName",
   "mobilePhone", "primaryPhone", "streetAddress", "secondEmail",
   "employeeNumber", "manager", "managerId"]

/-- Membership test of the source: the queried attribute is lower-cased and
then looked up in the (camelCase) list. -/
def isPIIAttribute (attr : String) : Bool :=
  piiAttributes.contains (strToLower attr)

/-- Echo masking of a search value (`maskValue` in the source). -/
def maskValue (value : String) : String :=
  if value.length ≤ 3 then "***"
  else value.take 1 ++ String.mk (List.replicate (value.length - 2) '*')
       ++ value.drop (value.length - 1)

/-- Search value echoed in the response (`users.ts` line 906). -/
def displayValue (attr value : String) : String :=
  if isPIIAttribute attr then maskValue value else value

/-! ## Search strategy selector (`find_users_by_attribute`, `users.ts` 733-964) -/

/-- Search operator of the `find_users_by_attribute` tool. -/
inductive Op where
  | eq
  | sw
  | ew
  | co
  | pr
deriving DecidableEq, Repr

/-- Wire spelling of an operator. -/
def Op.toStr : Op → String
  | Op.eq => "eq"
  | Op.sw => "sw"
  | Op.ew => "ew"
  | Op.co => "co"
  | Op.pr => "pr"

/-- Formatted native filter expression built for tier 1 (`pr` omits the value). -/
def searchQuery (attr : String) (op : Op) (value : String) : String :=
  match op with
  | Op.pr => "profile." ++ attr ++ " pr"
  | _ => "profile." ++ attr ++ " " ++ op.toStr ++ " \"" ++ value ++ "\""

/-- Failure-message phrase that triggers the tier-1 to tier-2 demotion. -/
def unsupportedPhrase : String := "operator is not supported"

/-- Method label of tier 3 in the source. -/
def clientSideMethod : String := "client-side filtering (limited to 200 users)"

/-- Tier selection of `find_users_by_attribute`: tier 1 is the formatted
search; on a failure whose message contains `unsupportedPhrase` the code tries
the free-text search (tier 2) and falls back to an unfiltered 200-user fetch
(tier 3) if that also fails; on any other tier-1 failure the code goes
straight to tier 3.  A tier-3 failure propagates (to the outer catch). -/
def selectUsers (dir : Dir) (attr value : String) (op : Op) (lim : Nat) :
    Except String (List String × String) :=
  match dir.listUsers (some (searchQuery attr op value)) (jsOrNat lim 50) with
  | Except.ok us => Except.ok (us, "formatted search")
  | Except.error e =>
    if strContains e unsupportedPhrase then
      match dir.listUsers (some value) (jsOrNat lim 50) with
      | Except.ok us => Except.ok (us, "free-text search")
      | Except.error _ =>
        match dir.listUsers none 200 with
        | Except.ok us => Except.ok (us, clientSideMethod)
        | Except.error e3 => Except.error e3
    else
      match dir.listUsers none 200 with
      | Except.ok us => Except.ok (us, clientSideMethod)
      | Except.error e3 => Except.error e3

/-- Tier-1 candidate pass (`users.ts` lines 822-838): each candidate is
re-fetched; a fetch failure or a missing profile silently skips the
candidate; the status rule is applied; no attribute re-check and no limit
break. -/
def tier1Filter (dir : Dir) (includeInactive : Bool) : List String → List FullUser
  | [] => []
  | c :: rest =>
    match dir.getUser c with
    | Except.error _ => tier1Filter dir includeInactive rest
    | Except.ok u =>
      match u.profile with
      | none => tier1Filter dir includeInactive rest
      | some _ =>
        if !includeInactive && u.status != "ACTIVE" then
          tier1Filter dir includeInactive rest
        else
          u :: tier1Filter dir includeInactive rest

/-- Case-insensitive operator comparison of the verification pass (both sides
are already lower-cased by the caller); `pr` is handled separately. -/
def opMatch (op : Op) (attrVal searchVal : String) : Bool :=
  match op with
  | Op.eq => attrVal == searchVal
  | Op.sw => charsLead searchVal.data attrVal.data
  | Op.ew => charsLead searchVal.data.reverse attrVal.data.reverse
  | Op.co => strContains attrVal searchVal
  | Op.pr => true

/-- Presence test of the `pr` operator: defined, non-null, non-empty. -/
def attrPresent (p : Profile) (attr : String) : Bool :=
  match profLookup p attr with
  | some (AttrVal.str s) => s != ""
  | _ => false

/-- Verification loop of tiers 2 and 3 (`users.ts` lines 841-902), with the
accumulated matches threaded explicitly.  A candidate whose fetch fails or
whose profile is missing is silently skipped; the status rule is applied;
`pr` keeps every present candidate and never consults the limit; the other
operators compare lower-cased strings and break once the accumulated matches
reach `jsOrNat lim 50`. -/
def verifyLoopAux (dir : Dir) (attr value : String) (op : Op) (lim : Nat)
    (includeInactive : Bool) : List String → List FullUser → List FullUser
  | [], acc => acc
  | c :: rest, acc =>
    match dir.getUser c with
    | Except.error _ => verifyLoopAux dir attr value op lim includeInactive rest acc
    | Except.ok u =>
      match u.profile with
      | none => verifyLoopAux dir attr value op lim includeInactive rest acc
      | some p =>
        if !includeInactive && u.status != "ACTIVE" then
          verifyLoopAux dir attr value op lim includeInactive rest acc
        else if op = Op.pr then
          if attrPresent p attr then
            verifyLoopAux dir attr value op lim includeInactive rest (acc ++ [u])
          else
            verifyLoopAux dir attr value op lim includeInactive rest acc
        else
          match profLookup p attr with
          | some (AttrVal.str s) =>
            if opMatch op (strToLower s) (strToLower value) then
              if (acc ++ [u]).length ≥ jsOrNat lim 50 then acc ++ [u]
              else verifyLoopAux dir attr value op lim includeInactive rest (acc ++ [u])
            else verifyLoopAux dir attr value op lim includeInactive rest acc
          | _ => verifyLoopAux dir attr value op lim includeInactive rest acc

/-- Verification pass entry point (empty accumulator). -/
def verifyCandidates (dir : Dir) (attr value : String) (op : Op) (lim : Nat)
    (includeInactive : Bool) (candidates : List String) : List FullUser :=
  verifyLoopAux dir attr value op lim includeInactive candidates []

/-- Structured outcome of a successful `find_users_by_attribute` run: the
method narration, the verified matches, and the (possibly masked) echoed
search value of the response header. -/
structure SearchOutcome where
  method : String
  matching : List FullUser
  echoedValue : String
deriving DecidableEq, Repr

/-- Core of the `find_users_by_attribute` handler: tier selection, then the
trusted tier-1 status pass or the tier-2/3 verification pass, then response
assembly with PII masking of the echoed value. -/
def find_users_by_attribute (dir : Dir) (attr value : String) (op : Op)
    (lim : Nat) (includeInactive : Bool) : Except String SearchOutcome :=
  match selectUsers dir attr value op lim with
  | Except.error e => Except.error e
  | Except.ok (cands, method) =>
    let matching :=
      if method = "formatted search" then tier1Filter dir includeInactive cands
      else verifyCandidates dir attr value op lim includeInactive cands
    Except.ok ⟨method, matching, displayValue attr value⟩

/-! ## Onboarding orchestrator (onboarding module) -/

/-- Parsed CSV row: the fields the import loop reads.  `none` models a column
absent from the row (JS `undefined`); the empty string is falsy as well. -/
structure Row where
  email : Option String := none
  firstName : Option String := none
  lastName : Option String := none
  department : Option String := none
  title : Option String := none
  mobilePhone : Option String := none
deriving DecidableEq, Repr

/-- Profile object built for `userApi.createUser` from a row: the required
fields plus the optional columns spread in when truthy. -/
def rowProfile (r : Row) : List (String × String) :=
  [("firstName", jsOr r.firstName ""), ("lastName", jsOr r.lastName ""),
   ("email", jsOr r.email ""), ("login", jsOr r.email "")]
  ++ (if falsy r.department then [] else [("department", jsOr r.department "")])
  ++ (if falsy r.title then [] else [("title", jsOr r.title "")])
  ++ (if falsy r.mobilePhone then [] else [("mobilePhone", jsOr r.mobilePhone "")])

/-- Success record of stage 1 (`results.success` entry). -/
structure ImportSuccess where
  id : String
  email : String
  status : String
deriving DecidableEq, Repr

/-- Failure record of stage 1 (`results.failed` entry). -/
structure ImportFailure where
  email : String
  reason : String
deriving DecidableEq, Repr

/-- Aggregated stage-1 report. -/
structure ImportResults where
  success : List ImportSuccess
  failed : List ImportFailure
deriving DecidableEq, Repr

/-- Reason string recorded for a row with a missing required field. -/
def missingFieldsReason : String :=
  "Missing required fields (email, firstName, or lastName)"

/-- Default-group assignment loop of stage 1: sequential, stops at the first
thrown assignment (the throw aborts the row, caught by the per-row catch). -/
def assignDefaultGroups (dir : Dir) (uid : String) :
    List String → Except String Unit × List DirCall
  | [] => (Except.ok (), [])
  | g :: gs =>
    match dir.assignUserToGroup g uid with
    | Except.error e => (Except.error e, [DirCall.assignUserToGroup g uid])
    | Except.ok _ =>
      let (r, t) := assignDefaultGroups dir uid gs
      (r, DirCall.assignUserToGroup g uid :: t)

/-- Per-row body of the stage-1 loop (`bulk_user_import`): required-field
validation, creation, optional activation, optional default-group
assignment; any failure is recorded against this row alone. -/
def importOneRow (dir : Dir) (activate sendEmail : Bool) (defaultGroups : List String)
    (r : Row) : (ImportFailure ⊕ ImportSuccess) × List DirCall :=
  if falsy r.email || falsy r.firstName || falsy r.lastName then
    (Sum.inl ⟨jsOr r.email "Missing email", missingFieldsReason⟩, [])
  else
    match dir.createUser (rowProfile r) with
    | Except.error e =>
      (Sum.inl ⟨jsOr r.email "Unknown", e⟩, [DirCall.createUser (jsOr r.email "")])
    | Except.ok uid =>
      let tc := [DirCall.createUser (jsOr r.email "")]
      let actStep : Except String Unit × List DirCall :=
        if activate then
          (dir.activateUser uid sendEmail |>.map (fun _ => ()),
            [DirCall.activateUser uid sendEmail])
        else (Except.ok (), [])
      match actStep with
      | (Except.error e, ta) => (Sum.inl ⟨jsOr r.email "Unknown", e⟩, tc ++ ta)
      | (Except.ok _, ta) =>
        match assignDefaultGroups dir uid defaultGroups with
        | (Except.error e, tg) => (Sum.inl ⟨jsOr r.email "Unknown", e⟩, tc ++ ta ++ tg)
        | (Except.ok _, tg) =>
          (Sum.inr ⟨uid, jsOr r.email "", if activate then "ACTIVE" else "STAGED"⟩,
            tc ++ ta ++ tg)

/-- Stage-1 loop over all rows: each row is processed independently and its
outcome appended to the matching list; order is preserved. -/
def bulkImport (dir : Dir) (activate sendEmail : Bool) (defaultGroups : List String) :
    List Row → ImportResults × List DirCall
  | [] => (⟨[], []⟩, [])
  | r :: rs =>
    let (o, t) := importOneRow dir activate sendEmail defaultGroups r
    let (res, trest) := bulkImport dir activate sendEmail defaultGroups rs
    match o with
    | Sum.inl f => (⟨res.success, f :: res.failed⟩, t ++ trest)
    | Sum.inr s => (⟨s :: res.success, res.failed⟩, t ++ trest)

/-- Attribute-to-value-to-group mapping table of stage 2
(`{"department": {"Engineering": "G1"}}`), as an association list. -/
abbrev GroupMappings := List (String × List (String × String))

/-- Success record of stage 2. -/
structure GroupOutcome where
  userId : String
  email : Option String
  assignedGroups : List String
  message : Option String
deriving DecidableEq, Repr

/-- Failure record of stage 2. -/
structure GroupFailure where
  userId : String
  reason : String
deriving DecidableEq, Repr

/-- Aggregated stage-2 report. -/
structure GroupResults where
  success : List GroupOutcome
  failed : List GroupFailure
deriving DecidableEq, Repr

/-- Email read off a fetched profile for the report records. -/
def profileEmail (p : Profile) : Option String :=
  match profLookup p "email" with
  | some (AttrVal.str s) => some s
  | _ => none

/-- Association-list lookup used for the value map of one attribute. -/
def alookup (m : List (String × String)) (k : String) : Option String :=
  match m with
  | [] => none
  | (k', v) :: rest => if k' = k then some v else alookup rest k

/-- Deduplicated target group set of one entity (insertion-ordered, as a JS
`Set`): every mapping attribute whose truthy profile value maps to a truthy
group id contributes that id once. -/
def groupsToAssign (mapping : GroupMappings) (p : Profile) : List String :=
  mapping.foldl
    (fun acc am =>
      match truthyAttr (profLookup p am.1) with
      | some v =>
        match alookup am.2 v with
        | some g => if g = "" then acc else if g ∈ acc then acc else acc ++ [g]
        | none => acc
      | none => acc)
    []

/-- Stage-2 group assignment loop for one entity: sequential, stops at the
first thrown assignment (caught by the per-entity catch). -/
def assignEach (dir : Dir) (uid : String) :
    List String → Except String Unit × List DirCall
  | [] => (Except.ok (), [])
  | g :: gs =>
    match dir.assignUserToGroup g uid with
    | Except.error e => (Except.error e, [DirCall.assignUserToGroup g uid])
    | Except.ok _ =>
      let (r, t) := assignEach dir uid gs
      (r, DirCall.assignUserToGroup g uid :: t)

/-- Per-entity body of stage 2 (`assign_users_to_groups`): fetch the profile,
compute the matching groups, record an empty-group success when no rule
matches, otherwise assign each group; any failure marks this entity failed. -/
def assignUserGroupsOne (dir : Dir) (mapping : GroupMappings) (uid : String) :
    (GroupFailure ⊕ GroupOutcome) × List DirCall :=
  match dir.getUser uid with
  | Except.error e => (Sum.inl ⟨uid, e⟩, [DirCall.getUser uid])
  | Except.ok u =>
    match u.profile with
    | none => (Sum.inl ⟨uid, "User not found or profile unavailable"⟩, [DirCall.getUser uid])
    | some p =>
      let gs := groupsToAssign mapping p
      if gs.isEmpty then
        (Sum.inr ⟨uid, profileEmail p, [], some "No group mappings matched user attributes"⟩,
          [DirCall.getUser uid])
      else
        match assignEach dir uid gs with
        | (Except.error e, t) => (Sum.inl ⟨uid, e⟩, DirCall.getUser uid :: t)
        | (Except.ok _, t) =>
          (Sum.inr ⟨uid, profileEmail p, gs, none⟩, DirCall.getUser uid :: t)

/-- Stage-2 loop over the entity keys. -/
def assignUsersToGroups (dir : Dir) (mapping : GroupMappings) :
    List String → GroupResults × List DirCall
  | [] => (⟨[], []⟩, [])
  | uid :: rest =>
    let (o, t) := assignUserGroupsOne dir mapping uid
    let (res, trest) := assignUsersToGroups dir mapping rest
    match o with
    | Sum.inl f => (⟨res.success, f :: res.failed⟩, t ++ trest)
    | Sum.inr s => (⟨s :: res.success, res.failed⟩, t ++ trest)

/-- Per-application sub-result of stage 3. -/
structure AppResult where
  appId : String
  status : String
  reason : Option String
deriving DecidableEq, Repr

/-- Per-entity record of stage 3 (used for both success and failure lists). -/
structure ProvOutcome where
  userId : String
  email : Option String
  applications : List AppResult
  reason : Option String
deriving DecidableEq, Repr

/-- Aggregated stage-3 report. -/
structure ProvResults where
  success : List ProvOutcome
  failed : List ProvOutcome
deriving DecidableEq, Repr

/-- Result of one application grant attempt. -/
def grantResult (dir : Dir) (uid appId : String) : AppResult :=
  match dir.assignUserToApplication appId uid with
  | Except.ok _ => ⟨appId, "assigned", none⟩
  | Except.error e => ⟨appId, "failed", some e⟩

/-- Stage-3 application loop for one entity: every grant is attempted (each
iteration has its own catch) and every sub-result is kept, in order. -/
def grantApps (dir : Dir) (uid : String) :
    List String → List AppResult × List DirCall
  | [] => ([], [])
  | a :: rest =>
    let (rs, t) := grantApps dir uid rest
    (grantResult dir uid a :: rs, DirCall.assignUserToApplication a uid :: t)

/-- Per-entity body of stage 3 (`provision_applications`): fetch the record,
attempt every grant, and classify the entity as failed exactly when some
sub-result has status `failed`; a fetch failure records the entity failed
with an empty sub-result list. -/
def provisionOne (dir : Dir) (appIds : List String) (uid : String) :
    (ProvOutcome ⊕ ProvOutcome) × List DirCall :=
  match dir.getUser uid with
  | Except.error e => (Sum.inl ⟨uid, none, [], some e⟩, [DirCall.getUser uid])
  | Except.ok u =>
    match u.profile with
    | none =>
      (Sum.inl ⟨uid, none, [], some "User not found or profile unavailable"⟩,
        [DirCall.getUser uid])
    | some p =>
      let (apps, t) := grantApps dir uid appIds
      if apps.any (fun a => a.status == "failed") then
        (Sum.inl ⟨uid, profileEmail p, apps, none⟩, DirCall.getUser uid :: t)
      else
        (Sum.inr ⟨uid, profileEmail p, apps, none⟩, DirCall.getUser uid :: t)

/-- Stage-3 loop over the entity keys. -/
def provisionApplications (dir : Dir) (appIds : List String) :
    List String → ProvResults × List DirCall
  | [] => (⟨[], []⟩, [])
  | uid :: rest =>
    let (o, t) := provisionOne dir appIds uid
    let (res, trest) := provisionApplications dir appIds rest
    match o with
    | Sum.inl f => (⟨res.success, f :: res.failed⟩, t ++ trest)
    | Sum.inr s => (⟨s :: res.success, res.failed⟩, t ++ trest)

/-- Outcome of `run_onboarding_workflow`: the early return when stage 1 yields
nothing (`aborted`: `userImport = none` models the missing `data` field of an
error-shaped import result, as with an empty CSV), or the full report. -/
inductive WorkflowOutcome where
  | aborted (userImport : Option ImportResults) (text : String)
  | completed (userImport : ImportResults) (groupAssignment : GroupResults)
      (applicationProvisioning : ProvResults)
deriving DecidableEq, Repr

/-- Early-return text of the workflow. -/
def noUsersText : String :=
  "No users were successfully created during the onboarding workflow."

/-- Group-assignment line of the workflow summary: counts when configured,
otherwise the not-configured marker. -/
def groupSummaryLine (mappings : GroupMappings) (gr : GroupResults) : String :=
  if mappings.length > 0 then
    "• Group Assignment:\n  - Users assigned to groups: " ++ toString gr.success.length
      ++ "\n  - Failed group assignments: " ++ toString gr.failed.length
  else "• Group Assignment: Not configured"

/-- Application-provisioning line of the workflow summary. -/
def appSummaryLine (appIds : List String) (ar : ProvResults) : String :=
  if appIds.length > 0 then
    "• Application Provisioning:\n  - Users provisioned with applications: "
      ++ toString ar.success.length
      ++ "\n  - Failed application provisioning: " ++ toString ar.failed.length
  else "• Application Provisioning: Not configured"

/-- The onboarding workflow (`run_onboarding_workflow`): stage 1 over the
parsed rows (an empty row set makes the import handler return an error result
with no `data`, hence the first early return); zero stage-1 successes abort
before stages 2 and 3; stage 2 runs only when the mapping table has keys and
stage 3 only when the application list is non-empty, both over exactly the
ids of the stage-1 successes. -/
def run_onboarding_workflow (dir : Dir) (rows : List Row) (activate : Bool)
    (defaultGroups : List String) (groupMappings : GroupMappings)
    (applicationIds : List String) (sendWelcomeEmail : Bool) :
    WorkflowOutcome × List DirCall :=
  if rows.isEmpty then (WorkflowOutcome.aborted none noUsersText, [])
  else
    let (imp, t1) := bulkImport dir activate sendWelcomeEmail defaultGroups rows
    if imp.success.isEmpty then (WorkflowOutcome.aborted (some imp) noUsersText, t1)
    else
      let ids := imp.success.map (fun s => s.id)
      let (gr, t2) :=
        if groupMappings.isEmpty then (⟨[], []⟩, [])
        else assignUsersToGroups dir groupMappings ids
      let (ar, t3) :=
        if applicationIds.isEmpty then (⟨[], []⟩, [])
        else provisionApplications dir applicationIds ids
      (WorkflowOutcome.completed imp gr ar, t1 ++ t2 ++ t3)

/-! ## Helper predicates and concrete directories for the theorems -/

/-- Right projection of a per-item outcome. -/
def sumRight? {α β : Type} : α ⊕ β → Option β
  | Sum.inl _ => none
  | Sum.inr b => some b

/-- Left projection of a per-item outcome. -/
def sumLeft? {α β : Type} : α ⊕ β → Option α
  | Sum.inl a => some a
  | Sum.inr _ => none

/-- Status rule of the verification passes: a kept user is active unless
inactive users were requested (negation of the skip condition in the source). -/
def statusKept (includeInactive : Bool) (u : FullUser) : Bool :=
  !(!includeInactive && u.status != "ACTIVE")

/-- Attribute-correctness check a verified search hit satisfies: `pr` holds of
a present (defined, non-null, non-empty) attribute, every other operator of a
lower-cased string comparison of the attribute value against the search value. -/
def opVerifies (op : Op) (attr value : String) (u : FullUser) : Bool :=
  match u.profile with
  | none => false
  | some p =>
    if op = Op.pr then attrPresent p attr
    else
      match profLookup p attr with
      | some (AttrVal.str s) => opMatch op (strToLower s) (strToLower value)
      | _ => false

/-- Untruncated filter the `pr` verification path computes: every candidate
that fetches, passes the status rule and has the attribute present is kept,
with no limit cut-off. -/
def prFilter (dir : Dir) (attr : String) (includeInactive : Bool)
    (cs : List String) : List FullUser :=
  cs.filterMap (fun c =>
    match dir.getUser c with
    | Except.error _ => none
    | Except.ok u =>
      match u.profile with
      | none => none
      | some p =>
        if !includeInactive && u.status != "ACTIVE" then none
        else if attrPresent p attr then some u else none)

/-- Application sub-results of a stage-3 outcome, failed or successful. -/
def outcomeApps (o : ProvOutcome ⊕ ProvOutcome) : List AppResult :=
  Sum.elim (fun x => x.applications) (fun x => x.applications) o

/-- Key of a stage-2 outcome, failed or successful. -/
def groupOutcomeKey (o : GroupFailure ⊕ GroupOutcome) : String :=
  Sum.elim (fun f => f.userId) (fun s => s.userId) o

/-- Key of a stage-3 outcome, failed or successful. -/
def provOutcomeKey (o : ProvOutcome ⊕ ProvOutcome) : String :=
  Sum.elim (fun f => f.userId) (fun s => s.userId) o

/-- Directory for the C3 counterexample: the formatted search fails with a
message that does not contain the unsupported-operator phrase, the free-text
search would succeed with `["u2"]`, and the unfiltered 200-user fetch returns
`["u3"]`. -/
def dirC3 : Dir :=
  { dirBase with
    listUsers := fun search lim =>
      if search = some (searchQuery "department" Op.eq "Sales") then
        Except.error "E0000031: internal server error"
      else if search = some "Sales" then Except.ok ["u2"]
      else if search = none && lim = 200 then Except.ok ["u3"]
      else Except.error "unexpected request" }

/-- Directory for the C4 counterexample and C9 witness: two active users whose
`department` attribute is present, every other fetch failing; the formatted
search fails with a generic message and the unfiltered fetch returns both. -/
def dirC4 : Dir :=
  { dirBase with
    listUsers := fun search lim =>
      if search = none && lim = 200 then Except.ok ["u1", "u2"]
      else Except.error "E0000031: internal server error",
    getUser := fun uid =>
      if uid = "u1" then
        Except.ok ⟨"u1", "ACTIVE", some [("department", AttrVal.str "Engineering")]⟩
      else if uid = "u2" then
        Except.ok ⟨"u2", "ACTIVE", some [("department", AttrVal.str "Sales")]⟩
      else Except.error "Resource not found" }

/-- Directory for the C8 witness: one resolvable user, application `app1`
grantable, application `app2` failing. -/
def dirC8 : Dir :=
  { dirBase with
    getUser := fun uid =>
      if uid = "u1" then
        Except.ok ⟨"u1", "ACTIVE", some [("email", AttrVal.str "u1@x.com")]⟩
      else Except.error "Resource not found",
    assignUserToApplication := fun appId _ =>
      if appId = "app1" then Except.ok () else Except.error "denied" }

/-- Directory for the C6 and C10 witnesses: creation, activation, group
assignment and application grants all succeed, and the created user resolves
with an `Engineering` department. -/
def dirC6 : Dir :=
  { dirBase with
    createUser := fun _ => Except.ok "id1",
    activateUser := fun _ _ => Except.ok (),
    assignUserToGroup := fun _ _ => Except.ok (),
    assignUserToApplication := fun _ _ => Except.ok (),
    getUser := fun uid =>
      if uid = "id1" then
        Except.ok ⟨"id1", "ACTIVE",
          some [("email", AttrVal.str "ada@x.com"),
                ("department", AttrVal.str "Engineering")]⟩
      else Except.error "Resource not found" }

/-- Well-formed CSV row used by the onboarding witnesses. -/
def rowAda : Row :=
  { email := some "ada@x.com", firstName := some "Ada", lastName := some "Lovelace" }

/-! ## C1 — dispatcher error handling -/

/-- C1 (counterexample): the claim states that no invocation path above the
handler boundary ever fails by raising, but the second-draft dispatcher
(`index.ts` lines 752-768) re-raises on an unregistered command name instead
of returning an error-shaped result. -/
theorem C1_draft2_dispatch_raises :
    dispatchDraft2 (fun _ => none) "make_coffee" [] =
      Except.error "Error executing tool make_coffee: Unknown tool: make_coffee" := rfl

/-- C1 (amended): in the `startServer` dispatcher, an unregistered command
name yields a well-formed result with `isError = true` naming the unknown
command, a raising handler is caught and converted to an error result, and a
returning handler's result is passed through; this dispatcher never raises
(its result type is a plain result).  The second-draft dispatcher instead
re-raises a wrapped failure. -/
theorem C1_dispatch_never_raises (handlers : String → Option Handler)
    (name : String) (args : Args) :
    (handlers name = none →
      (dispatch handlers name args).1 = errorResult ("Error: Unknown tool: " ++ name) ∧
      (dispatch handlers name args).1.isError = true) ∧
    (∀ h e t, handlers name = some h → h args = (Except.error e, t) →
      (dispatch handlers name args).1 = errorResult ("Error: " ++ e) ∧
      (dispatch handlers name args).1.isError = true) ∧
    (∀ h r t, handlers name = some h → h args = (Except.ok r, t) →
      (dispatch handlers name args).1 = r) := by
  refine ⟨fun h => ?_, fun h e t hh ha => ?_, fun h r t hh ha => ?_⟩ <;>
    simp [dispatch, errorResult, *]

/-- C1 (witness): the amended theorem applied to the empty registry and an
unregistered name. -/
theorem C1_dispatch_never_raises_witness :
    (dispatch (fun _ => none) "make_coffee" []).1 =
      errorResult "Error: Unknown tool: make_coffee" :=
  ((C1_dispatch_never_raises (fun _ => none) "make_coffee" []).1 rfl).1

/-! ## C5 — PII masking -/

/-- C5 (code bug): the mask itself behaves as specified (`"ab"` to `"***"`,
`"alice"` to `"a***e"`, `"john.doe@x.com"` to `"j************m"`), but
`isPIIAttribute` lower-cases the queried attribute before membership in a
camelCase list, so the camelCase entries of the fixed PII set (for example
`firstName`) can never match and those attributes are echoed unmasked, while
the all-lowercase entries (`email`, `login`, `manager`) still mask. -/
theorem C5_pii_masking_divergence :
    maskValue "ab" = "***" ∧
    maskValue "alice" = "a***e" ∧
    maskValue "john.doe@x.com" = "j************m" ∧
    piiAttributes.contains "firstName" = true ∧
    isPIIAttribute "firstName" = false ∧
    displayValue "firstName" "alice" = "alice" ∧
    isPIIAttribute "email" = true ∧
    displayValue "email" "alice" = "a***e" := by
  refine ⟨rfl, rfl, rfl, by decide, by decide, ?_, by decide, ?_⟩ <;> decide

/-! ## C2 — validation failures resolved before any handler work -/

/-- C2: when the raw arguments of a `get_user` invocation lack the required
`userId` field, the dispatcher returns a well-formed result with
`isError = true` whose message cites the field, and no remote directory work
is performed (the directory-call trace is empty), for every directory oracle. -/
theorem C2_validation_before_handler (dir : Dir) (args : Args)
    (h : lookupArg args "userId" = none) :
    dispatch (HANDLERS dir) "get_user" args =
      (errorResult "Error: invalid input at userId: Required", []) ∧
    (dispatch (HANDLERS dir) "get_user" args).1.isError = true ∧
    strContains "invalid input at userId: Required" "userId" = true := by
  refine ⟨?_, ?_, by decide⟩ <;>
    simp [dispatch, HANDLERS, get_user_handler, zodParseGetUser, errorResult, h]

/-- C2 (witness): concrete invocation with an empty argument mapping. -/
theorem C2_validation_before_handler_witness :
    dispatch (HANDLERS dirBase) "get_user" [] =
      (errorResult "Error: invalid input at userId: Required", []) :=
  (C2_validation_before_handler dirBase [] rfl).1

/-! ## C3 — tier fallback order -/

/-- C3 (counterexample): the claim states that every tier-1 failure demotes to
tier 2, but on a tier-1 failure whose message lacks the unsupported-operator
phrase the selector goes straight to the unfiltered tier-3 fetch: here the
free-text search would have returned `["u2"]`, yet the selector answers with
tier 3's `["u3"]` and the client-side method label. -/
theorem C3_other_failures_skip_tier2 :
    selectUsers dirC3 "department" "Sales" Op.eq 50 =
      Except.ok (["u3"], clientSideMethod) ∧
    dirC3.listUsers (some (searchQuery "department" Op.eq "Sales")) 50 =
      Except.error "E0000031: internal server error" ∧
    strContains "E0000031: internal server error" unsupportedPhrase = false ∧
    dirC3.listUsers (some "Sales") 50 = Except.ok ["u2"] := by
  refine ⟨rfl, rfl, by decide, rfl⟩

/-- C3 (amended): tier-1 success is served as the formatted search; a tier-1
failure whose message contains `"operator is not supported"` demotes to the
free-text search and only its failure reaches the 200-capped client-side
fetch; every other tier-1 failure skips tier 2 and goes directly to the
client-side fetch. -/
theorem C3_tier_fallback (dir : Dir) (attr value : String) (op : Op) (lim : Nat) :
    (∀ us, dir.listUsers (some (searchQuery attr op value)) (jsOrNat lim 50) = Except.ok us →
      selectUsers dir attr value op lim = Except.ok (us, "formatted search")) ∧
    (∀ e us, dir.listUsers (some (searchQuery attr op value)) (jsOrNat lim 50) = Except.error e →
      strContains e unsupportedPhrase = true →
      dir.listUsers (some value) (jsOrNat lim 50) = Except.ok us →
      selectUsers dir attr value op lim = Except.ok (us, "free-text search")) ∧
    (∀ e e2, dir.listUsers (some (searchQuery attr op value)) (jsOrNat lim 50) = Except.error e →
      strContains e unsupportedPhrase = true →
      dir.listUsers (some value) (jsOrNat lim 50) = Except.error e2 →
      selectUsers dir attr value op lim =
        (dir.listUsers none 200).map (fun us => (us, clientSideMethod))) ∧
    (∀ e, dir.listUsers (some (searchQuery attr op value)) (jsOrNat lim 50) = Except.error e →
      strContains e unsupportedPhrase = false →
      selectUsers dir attr value op lim =
        (dir.listUsers none 200).map (fun us => (us, clientSideMethod))) := by
  refine ⟨fun us h1 => ?_, fun e us h1 hph h2 => ?_, fun e e2 h1 hph h2 => ?_,
    fun e h1 hph => ?_⟩
  · simp [selectUsers, h1]
  · simp [selectUsers, h1, hph, h2]
  · cases h3 : dir.listUsers none 200 <;>
      simp [selectUsers, h1, hph, h2, h3, Except.map]
  · cases h3 : dir.listUsers none 200 <;>
      simp [selectUsers, h1, hph, h3, Except.map]

/-- C3 (witness): the amended theorem's other-failure branch at the concrete
directory of the counterexample classification. -/
theorem C3_tier_fallback_witness :
    selectUsers dirC3 "department" "Sales" Op.co 50 =
      (dirC3.listUsers none 200).map (fun us => (us, clientSideMethod)) :=
  (C3_tier_fallback dirC3 "department" "Sales" Op.co 50).2.2.2
    "unexpected request" rfl (by decide)

/-! ## C9 — silent skip of failed candidate fetches -/

/-- C9: in both the tier-1 status pass and the tier-2/3 verification pass, a
candidate whose full-record fetch raises is skipped with no error indication
and no failure record: the result over `c :: rest` equals the result over
`rest` alone, so the remaining candidates are processed unchanged. -/
theorem C9_fetch_failure_silently_skipped (dir : Dir) (attr value : String)
    (op : Op) (lim : Nat) (inc : Bool) (c : String) (rest : List String)
    (e : String) (h : dir.getUser c = Except.error e) :
    tier1Filter dir inc (c :: rest) = tier1Filter dir inc rest ∧
    verifyCandidates dir attr value op lim inc (c :: rest) =
      verifyCandidates dir attr value op lim inc rest := by
  constructor
  · simp [tier1Filter, h]
  · simp [verifyCandidates, verifyLoopAux, h]

/-- C9 (witness): in the concrete directory `dirC4`, the unknown candidate
`ghost` fails to fetch and is dropped from both passes. -/
theorem C9_fetch_failure_silently_skipped_witness :
    tier1Filter dirC4 false ["ghost", "u1"] = tier1Filter dirC4 false ["u1"] ∧
    verifyCandidates dirC4 "department" "eng" Op.co 50 false ["ghost", "u1"] =
      verifyCandidates dirC4 "department" "eng" Op.co 50 false ["u1"] :=
  C9_fetch_failure_silently_skipped dirC4 "department" "eng" Op.co 50 false
    "ghost" ["u1"] "Resource not found" rfl

/-! ## C4 — verification pass semantics and early stop -/

/-- On the `pr` operator the verification loop never consults the limit: it
computes exactly the untruncated present-attribute filter, appended to the
running accumulator. -/
theorem verifyLoopAux_pr_filter (dir : Dir) (attr value : String) (lim : Nat)
    (inc : Bool) :
    ∀ (cs : List String) (acc : List FullUser),
      verifyLoopAux dir attr value Op.pr lim inc cs acc =
        acc ++ prFilter dir attr inc cs := by
  intro cs
  induction cs with
  | nil => intro acc; simp [verifyLoopAux, prFilter]
  | cons c rest ih =>
    intro acc
    cases h : dir.getUser c with
    | error e => simp [verifyLoopAux, prFilter, List.filterMap_cons, h, ih]
    | ok u =>
      cases hp : u.profile with
      | none => simp [verifyLoopAux, prFilter, List.filterMap_cons, h, hp, ih]
      | some p =>
        by_cases hs : inc = false ∧ ¬u.status = "ACTIVE"
        · obtain ⟨hs1, hs2⟩ := hs
          subst hs1
          simp [verifyLoopAux, prFilter, List.filterMap_cons, h, hp, hs2, ih]
        · by_cases hpres : attrPresent p attr = true <;>
            simp [verifyLoopAux, prFilter, List.filterMap_cons, h, hp, hs, hpres, ih]

/-- On every operator other than `pr`, the verification loop stops as soon as
the accumulated matches reach the (defaulted) limit, so its output length
never exceeds that limit. -/
theorem verifyLoopAux_length_le (dir : Dir) (attr value : String) (op : Op)
    (lim : Nat) (inc : Bool) (hop : op ≠ Op.pr) :
    ∀ (cs : List String) (acc : List FullUser),
      acc.length < jsOrNat lim 50 →
      (verifyLoopAux dir attr value op lim inc cs acc).length ≤ jsOrNat lim 50 := by
  intro cs
  induction cs with
  | nil => intro acc hacc; simpa [verifyLoopAux] using Nat.le_of_lt hacc
  | cons c rest ih =>
    intro acc hacc
    cases h : dir.getUser c with
    | error e => simpa [verifyLoopAux, h] using ih acc hacc
    | ok u =>
      cases hp : u.profile with
      | none => simpa [verifyLoopAux, h, hp] using ih acc hacc
      | some p =>
        by_cases hs : (!inc && u.status != "ACTIVE") = true
        · simpa [verifyLoopAux, h, hp, hs] using ih acc hacc
        · cases hl : profLookup p attr with
          | none => simpa [verifyLoopAux, h, hp, hs, hop, hl] using ih acc hacc
          | some v =>
            cases v with
            | null => simpa [verifyLoopAux, h, hp, hs, hop, hl] using ih acc hacc
            | str s =>
              by_cases hm : opMatch op (strToLower s) (strToLower value) = true
              · by_cases hb : jsOrNat lim 50 ≤ acc.length + 1
                · have hle : acc.length + 1 ≤ jsOrNat lim 50 := Nat.succ_le_of_lt hacc
                  simpa [verifyLoopAux, h, hp, hs, hop, hl, hm, hb] using hle
                · have hlt : (acc ++ [u]).length < jsOrNat lim 50 := by
                    simpa using Nat.not_le.mp hb
                  simpa [verifyLoopAux, h, hp, hs, hop, hl, hm, hb]
                    using ih (acc ++ [u]) hlt
              · simpa [verifyLoopAux, h, hp, hs, hop, hl, hm] using ih acc hacc

/-- Every user the verification loop keeps passed the status rule and the
operator-specific attribute check. -/
theorem verifyLoopAux_mem (dir : Dir) (attr value : String) (op : Op)
    (lim : Nat) (inc : Bool) :
    ∀ (cs : List String) (acc : List FullUser),
      (∀ u ∈ acc, statusKept inc u = true ∧ opVerifies op attr value u = true) →
      ∀ u ∈ verifyLoopAux dir attr value op lim inc cs acc,
        statusKept inc u = true ∧ opVerifies op attr value u = true := by
  intro cs
  induction cs with
  | nil => intro acc hacc; simpa [verifyLoopAux] using hacc
  | cons c rest ih =>
    intro acc hacc
    cases h : dir.getUser c with
    | error e =>
      simp only [verifyLoopAux, h]
      exact ih acc hacc
    | ok u =>
      cases hp : u.profile with
      | none =>
        simp only [verifyLoopAux, h, hp]
        exact ih acc hacc
      | some p =>
        by_cases hs : (!inc && u.status != "ACTIVE") = true
        · simp only [verifyLoopAux, h, hp, hs, if_true]
          exact ih acc hacc
        · have hkept : statusKept inc u = true := by
            simp only [statusKept, Bool.not_eq_true]
            simp only [Bool.not_eq_true] at hs
            simp [hs]
          by_cases hpr : op = Op.pr
          · subst hpr
            by_cases hpres : attrPresent p attr = true
            · have hnew : statusKept inc u = true ∧
                  opVerifies Op.pr attr value u = true := by
                refine ⟨hkept, ?_⟩
                simp [opVerifies, hp, hpres]
              have hacc' : ∀ v ∈ acc ++ [u],
                  statusKept inc v = true ∧ opVerifies Op.pr attr value v = true := by
                intro v hv
                rcases List.mem_append.mp hv with hv | hv
                · exact hacc v hv
                · exact (List.mem_singleton.mp hv) ▸ hnew
              simp only [verifyLoopAux, h, hp, hs, hpres]
              simp only [Bool.not_eq_true] at hs
              simp only [hs, Bool.false_eq_true, if_false, if_pos rfl, if_true]
              exact ih (acc ++ [u]) hacc'
            · simp only [verifyLoopAux, h, hp, hs, hpres]
              simp only [Bool.not_eq_true] at hs
              simp only [hs, Bool.false_eq_true, if_false, if_pos rfl]
              exact ih acc hacc
          · cases hl : profLookup p attr with
            | none =>
              simp only [verifyLoopAux, h, hp]
              simp only [Bool.not_eq_true] at hs
              simp only [hs, Bool.false_eq_true, if_false, if_neg hpr, hl]
              exact ih acc hacc
            | some v =>
              cases v with
              | null =>
                simp only [verifyLoopAux, h, hp]
                simp only [Bool.not_eq_true] at hs
                simp only [hs, Bool.false_eq_true, if_false, if_neg hpr, hl]
                exact ih acc hacc
              | str s =>
                by_cases hm : opMatch op (strToLower s) (strToLower value) = true
                · have hnew : statusKept inc u = true ∧
                      opVerifies op attr value u = true := by
                    refine ⟨hkept, ?_⟩
                    simp [opVerifies, hp, hl, hm, if_neg hpr]
                  have hacc' : ∀ v ∈ acc ++ [u],
                      statusKept inc v = true ∧ opVerifies op attr value v = true := by
                    intro v hv
                    rcases List.mem_append.mp hv with hv | hv
                    · exact hacc v hv
                    · exact (List.mem_singleton.mp hv) ▸ hnew
                  simp only [verifyLoopAux, h, hp]
                  simp only [Bool.not_eq_true] at hs
                  simp only [hs, Bool.false_eq_true, if_false, if_neg hpr, hl, hm, if_true]
                  by_cases hb : (acc ++ [u]).length ≥ jsOrNat lim 50
                  · simp only [hb, if_true]
                    exact hacc'
                  · simp only [hb, if_false]
                    exact ih (acc ++ [u]) hacc'
                · simp only [verifyLoopAux, h, hp]
                  simp only [Bool.not_eq_true] at hs
                  have hm' : opMatch op (strToLower s) (strToLower value) = false := by
                    simpa using hm
                  simp only [hs, Bool.false_eq_true, if_false, if_neg hpr, hl, hm',
                    Bool.false_eq_true, if_false]
                  exact ih acc hacc

/-- C4 (counterexample): the claim states the verification loop stops at the
requested limit for every operator including `pr`, but a tier-3 `pr` search
with `limit = 1` over two present candidates returns both of them. -/
theorem C4_pr_ignores_limit :
    (find_users_by_attribute dirC4 "department" "x" Op.pr 1 false).map
        (fun o => (o.method, o.matching.length)) =
      Except.ok (clientSideMethod, 2) ∧
    verifyCandidates dirC4 "department" "x" Op.pr 1 false ["u1", "u2"] =
      [⟨"u1", "ACTIVE", some [("department", AttrVal.str "Engineering")]⟩,
       ⟨"u2", "ACTIVE", some [("department", AttrVal.str "Sales")]⟩] := by
  constructor
  · rfl
  · rfl

/-- C4 (amended): in the verification pass of tiers 2 and 3, every kept user
passed the status rule and the case-insensitive operator check on its fetched
record (`eq` exact, `sw`/`ew`/`co` substring tests, `pr` present); for the
operators `eq`, `sw`, `ew` and `co` the loop stops as soon as the requested
limit of verified matches is reached, but for `pr` the limit is never
consulted and the untruncated filter of all present candidates is returned. -/
theorem C4_verification_pass (dir : Dir) (attr value : String) (op : Op)
    (lim : Nat) (inc : Bool) (cs : List String) :
    (∀ u ∈ verifyCandidates dir attr value op lim inc cs,
      statusKept inc u = true ∧ opVerifies op attr value u = true) ∧
    (op ≠ Op.pr → 1 ≤ lim →
      (verifyCandidates dir attr value op lim inc cs).length ≤ lim) ∧
    (verifyCandidates dir attr value Op.pr lim inc cs = prFilter dir attr inc cs) := by
  refine ⟨?_, fun hop hlim => ?_, ?_⟩
  · exact verifyLoopAux_mem dir attr value op lim inc cs [] (by simp)
  · have hlim' : jsOrNat lim 50 = lim := by
      simp [jsOrNat, Nat.pos_iff_ne_zero.mp hlim]
    have := verifyLoopAux_length_le dir attr value op lim inc hop cs []
      (by simpa [hlim'] using hlim)
    simpa [verifyCandidates, hlim'] using this
  · simpa using verifyLoopAux_pr_filter dir attr value lim inc cs []

/-- C4 (witness): the amended theorem instantiated at a concrete `eq` search
with limit 1 over the two-user directory. -/
theorem C4_verification_pass_witness :
    (verifyCandidates dirC4 "department" "engineering" Op.eq 1 false
      ["u1", "u2"]).length ≤ 1 :=
  (C4_verification_pass dirC4 "department" "engineering" Op.eq 1 false
    ["u1", "u2"]).2.1 (by decide) (by decide)

/-! ## C7 — per-row isolation of the bulk import -/

/-- Reduction of the right projection on a failure outcome. -/
theorem sumRight?_inl {α β : Type} (a : α) : sumRight? (Sum.inl a : α ⊕ β) = none := rfl

/-- Reduction of the right projection on a success outcome. -/
theorem sumRight?_inr {α β : Type} (b : β) : sumRight? (Sum.inr b : α ⊕ β) = some b := rfl

/-- Reduction of the left projection on a failure outcome. -/
theorem sumLeft?_inl {α β : Type} (a : α) : sumLeft? (Sum.inl a : α ⊕ β) = some a := rfl

/-- Reduction of the left projection on a success outcome. -/
theorem sumLeft?_inr {α β : Type} (b : β) : sumLeft? (Sum.inr b : α ⊕ β) = none := rfl

/-- Stage-1 aggregation is the pointwise partition of the independent per-row
outcomes: no row's failure aborts the batch or alters another row's result. -/
theorem bulkImport_decomp (dir : Dir) (activate sendEmail : Bool)
    (defaultGroups : List String) :
    ∀ rows : List Row,
      (bulkImport dir activate sendEmail defaultGroups rows).1.success =
        rows.filterMap
          (fun r => sumRight? (importOneRow dir activate sendEmail defaultGroups r).1) ∧
      (bulkImport dir activate sendEmail defaultGroups rows).1.failed =
        rows.filterMap
          (fun r => sumLeft? (importOneRow dir activate sendEmail defaultGroups r).1) := by
  intro rows
  induction rows with
  | nil => simp [bulkImport]
  | cons r rs ih =>
    rcases he : importOneRow dir activate sendEmail defaultGroups r with ⟨o, t⟩
    rcases hb : bulkImport dir activate sendEmail defaultGroups rs with ⟨res, trest⟩
    rw [hb] at ih
    cases o with
    | inl f =>
      simp [bulkImport, List.filterMap_cons, he, hb, sumRight?_inl, sumLeft?_inl]
      exact ⟨ih.1, ih.2⟩
    | inr s =>
      simp [bulkImport, List.filterMap_cons, he, hb, sumRight?_inr, sumLeft?_inr]
      exact ⟨ih.1, ih.2⟩

/-- C7: stage-1 results are the order-preserving partition of independent
per-row outcomes (so one row's creation, activation or default-group failure
is recorded against that row only and the remaining rows proceed), and a row
with a falsy required field is recorded as a failure with the
missing-required-fields reason. -/
theorem C7_row_isolation (dir : Dir) (activate sendEmail : Bool)
    (defaultGroups : List String) (rows : List Row) (r : Row) :
    ((bulkImport dir activate sendEmail defaultGroups rows).1.success =
        rows.filterMap
          (fun row => sumRight? (importOneRow dir activate sendEmail defaultGroups row).1) ∧
      (bulkImport dir activate sendEmail defaultGroups rows).1.failed =
        rows.filterMap
          (fun row => sumLeft? (importOneRow dir activate sendEmail defaultGroups row).1)) ∧
    ((falsy r.email || falsy r.firstName || falsy r.lastName) = true →
      (importOneRow dir activate sendEmail defaultGroups r).1 =
        Sum.inl ⟨jsOr r.email "Missing email", missingFieldsReason⟩ ∧
      (importOneRow dir activate sendEmail defaultGroups r).2 = []) := by
  refine ⟨bulkImport_decomp dir activate sendEmail defaultGroups rows, fun hmiss => ?_⟩
  constructor <;> simp [importOneRow, hmiss]

/-- C7 (witness): a row lacking `lastName` is recorded with the
missing-required-fields reason, with no directory call. -/
theorem C7_row_isolation_witness :
    (importOneRow dirBase false true []
        { email := some "ada@x.com", firstName := some "Ada" }).1 =
      Sum.inl ⟨"ada@x.com", missingFieldsReason⟩ ∧
    (importOneRow dirBase false true []
        { email := some "ada@x.com", firstName := some "Ada" }).2 = [] :=
  (C7_row_isolation dirBase false true [] []
    { email := some "ada@x.com", firstName := some "Ada" }).2 (by decide)

/-! ## C8 — independent application grants -/

/-- The stage-3 application loop records one sub-result per requested
application, in request order. -/
theorem grantApps_fst (dir : Dir) (uid : String) :
    ∀ appIds : List String,
      (grantApps dir uid appIds).1 = appIds.map (grantResult dir uid) := by
  intro appIds
  induction appIds with
  | nil => simp [grantApps]
  | cons a rest ih =>
    rcases hg : grantApps dir uid rest with ⟨rs, t⟩
    rw [hg] at ih
    simp [grantApps, hg, ih]

/-- Stage-3 aggregation is the pointwise partition of independent per-entity
outcomes. -/
theorem provisionApplications_decomp (dir : Dir) (appIds : List String) :
    ∀ ids : List String,
      (provisionApplications dir appIds ids).1.success =
        ids.filterMap (fun v => sumRight? (provisionOne dir appIds v).1) ∧
      (provisionApplications dir appIds ids).1.failed =
        ids.filterMap (fun v => sumLeft? (provisionOne dir appIds v).1) := by
  intro ids
  induction ids with
  | nil => simp [provisionApplications]
  | cons uid rest ih =>
    rcases he : provisionOne dir appIds uid with ⟨o, t⟩
    rcases hb : provisionApplications dir appIds rest with ⟨res, trest⟩
    rw [hb] at ih
    cases o with
    | inl f =>
      simp [provisionApplications, List.filterMap_cons, he, hb, sumRight?_inl,
        sumLeft?_inl]
      exact ⟨ih.1, ih.2⟩
    | inr s =>
      simp [provisionApplications, List.filterMap_cons, he, hb, sumRight?_inr,
        sumLeft?_inr]
      exact ⟨ih.1, ih.2⟩

/-- C8: for an entity whose record resolves, every application grant is
attempted and all per-application sub-results are retained in request order;
the entity's outcome lands in the failed list exactly when at least one grant
failed; and the stage aggregates entities pointwise, so one entity's grant
failures never affect another entity's processing. -/
theorem C8_provisioning (dir : Dir) (appIds : List String) (uid : String)
    (u : FullUser) (p : Profile) (hu : dir.getUser uid = Except.ok u)
    (hp : u.profile = some p) :
    outcomeApps (provisionOne dir appIds uid).1 = appIds.map (grantResult dir uid) ∧
    ((provisionOne dir appIds uid).1.isLeft = true ↔
      ∃ a ∈ appIds, ∃ e, dir.assignUserToApplication a uid = Except.error e) ∧
    (∀ ids : List String,
      (provisionApplications dir appIds ids).1.success =
        ids.filterMap (fun v => sumRight? (provisionOne dir appIds v).1) ∧
      (provisionApplications dir appIds ids).1.failed =
        ids.filterMap (fun v => sumLeft? (provisionOne dir appIds v).1)) := by
  rcases hg : grantApps dir uid appIds with ⟨apps, tg⟩
  have happs : apps = appIds.map (grantResult dir uid) := by
    have := grantApps_fst dir uid appIds
    rw [hg] at this
    exact this
  have hpt : ∀ a, ((grantResult dir uid a).status == "failed") = true ↔
      ∃ e, dir.assignUserToApplication a uid = Except.error e := by
    intro a
    cases h : dir.assignUserToApplication a uid <;> simp [grantResult, h]
  refine ⟨?_, ?_, provisionApplications_decomp dir appIds⟩
  · simp only [provisionOne, hu, hp, hg]
    split <;> simp [outcomeApps, happs]
  · simp only [provisionOne, hu, hp, hg]
    by_cases hf : (apps.any fun a => a.status == "failed") = true
    · rw [if_pos hf]
      refine ⟨fun _ => ?_, fun _ => rfl⟩
      rcases List.any_eq_true.mp hf with ⟨x, hx, hpx⟩
      rw [happs] at hx
      rcases List.mem_map.mp hx with ⟨a, ha, rfl⟩
      exact ⟨a, ha, (hpt a).mp hpx⟩
    · rw [if_neg hf]
      refine ⟨fun hcon => ?_, fun hcon => ?_⟩
      · exact Bool.noConfusion hcon
      · exfalso
        apply hf
        rcases hcon with ⟨a, ha, e, he⟩
        apply List.any_eq_true.mpr
        refine ⟨grantResult dir uid a, ?_, (hpt a).mpr ⟨e, he⟩⟩
        rw [happs]
        exact List.mem_map.mpr ⟨a, ha, rfl⟩

/-- C8 (witness): at the concrete directory with one granting and one denied
application, both sub-results are retained. -/
theorem C8_provisioning_witness :
    outcomeApps (provisionOne dirC8 ["app1", "app2"] "u1").1 =
      ["app1", "app2"].map (grantResult dirC8 "u1") :=
  (C8_provisioning dirC8 ["app1", "app2"] "u1"
    ⟨"u1", "ACTIVE", some [("email", AttrVal.str "u1@x.com")]⟩
    [("email", AttrVal.str "u1@x.com")] rfl rfl).1

/-! ## C6 and C10 — workflow stage gating -/

/-- Every stage-2 outcome is recorded under the entity key it was invoked
with. -/
theorem assignUserGroupsOne_key (dir : Dir) (mapping : GroupMappings) (uid : String) :
    groupOutcomeKey (assignUserGroupsOne dir mapping uid).1 = uid := by
  cases h : dir.getUser uid with
  | error e => simp [assignUserGroupsOne, groupOutcomeKey, h]
  | ok u =>
    cases hp : u.profile with
    | none => simp [assignUserGroupsOne, groupOutcomeKey, h, hp]
    | some p =>
      simp only [assignUserGroupsOne, h, hp]
      split
      · simp [groupOutcomeKey]
      · split <;> simp [groupOutcomeKey]

/-- Every stage-3 outcome is recorded under the entity key it was invoked
with. -/
theorem provisionOne_key (dir : Dir) (appIds : List String) (uid : String) :
    provOutcomeKey (provisionOne dir appIds uid).1 = uid := by
  cases h : dir.getUser uid with
  | error e => simp [provisionOne, provOutcomeKey, h]
  | ok u =>
    cases hp : u.profile with
    | none => simp [provisionOne, provOutcomeKey, h, hp]
    | some p =>
      rcases hg : grantApps dir uid appIds with ⟨apps, t⟩
      simp only [provisionOne, h, hp, hg]
      split <;> simp [provOutcomeKey]

/-- The keys of the stage-2 report (successes and failures together) are a
permutation of the entity keys handed to the stage. -/
theorem assignUsersToGroups_keys_perm (dir : Dir) (mapping : GroupMappings) :
    ∀ ids : List String,
      List.Perm
        ((assignUsersToGroups dir mapping ids).1.success.map (fun s => s.userId) ++
          (assignUsersToGroups dir mapping ids).1.failed.map (fun f => f.userId))
        ids := by
  intro ids
  induction ids with
  | nil => simp [assignUsersToGroups]
  | cons uid rest ih =>
    rcases he : assignUserGroupsOne dir mapping uid with ⟨o, t⟩
    rcases hb : assignUsersToGroups dir mapping rest with ⟨res, trest⟩
    rw [hb] at ih
    have hkey := assignUserGroupsOne_key dir mapping uid
    rw [he] at hkey
    cases o with
    | inl f =>
      have hf : f.userId = uid := by simpa [groupOutcomeKey] using hkey
      simp only [assignUsersToGroups, he, hb, List.map_cons, hf]
      exact List.perm_middle.trans (ih.cons uid)
    | inr s =>
      have hsid : s.userId = uid := by simpa [groupOutcomeKey] using hkey
      simp only [assignUsersToGroups, he, hb, List.map_cons, hsid, List.cons_append]
      exact ih.cons uid

/-- The keys of the stage-3 report (successes and failures together) are a
permutation of the entity keys handed to the stage. -/
theorem provisionApplications_keys_perm (dir : Dir) (appIds : List String) :
    ∀ ids : List String,
      List.Perm
        ((provisionApplications dir appIds ids).1.success.map (fun s => s.userId) ++
          (provisionApplications dir appIds ids).1.failed.map (fun f => f.userId))
        ids := by
  intro ids
  induction ids with
  | nil => simp [provisionApplications]
  | cons uid rest ih =>
    rcases he : provisionOne dir appIds uid with ⟨o, t⟩
    rcases hb : provisionApplications dir appIds rest with ⟨res, trest⟩
    rw [hb] at ih
    have hkey := provisionOne_key dir appIds uid
    rw [he] at hkey
    cases o with
    | inl f =>
      have hf : f.userId = uid := by simpa [provOutcomeKey] using hkey
      simp only [provisionApplications, he, hb, List.map_cons, hf]
      exact List.perm_middle.trans (ih.cons uid)
    | inr s =>
      have hsid : s.userId = uid := by simpa [provOutcomeKey] using hkey
      simp only [provisionApplications, he, hb, List.map_cons, hsid, List.cons_append]
      exact ih.cons uid

/-- Unfolding of the workflow when stage 1 produced at least one success: the
report is `completed`, stages 2 and 3 run over exactly the ids of the stage-1
successes and only when configured, and the trace is the concatenation of the
per-stage traces, with an unconfigured stage contributing nothing. -/
theorem run_workflow_completed (dir : Dir) (rows : List Row) (activate : Bool)
    (defaultGroups : List String) (groupMappings : GroupMappings)
    (applicationIds : List String) (sendWelcomeEmail : Bool)
    (hrows : rows ≠ [])
    (hne : (bulkImport dir activate sendWelcomeEmail defaultGroups rows).1.success ≠ []) :
    run_onboarding_workflow dir rows activate defaultGroups groupMappings
        applicationIds sendWelcomeEmail =
      (WorkflowOutcome.completed
        (bulkImport dir activate sendWelcomeEmail defaultGroups rows).1
        (if groupMappings.isEmpty then ⟨[], []⟩
         else (assignUsersToGroups dir groupMappings
           ((bulkImport dir activate sendWelcomeEmail defaultGroups rows).1.success.map
             (fun s => s.id))).1)
        (if applicationIds.isEmpty then ⟨[], []⟩
         else (provisionApplications dir applicationIds
           ((bulkImport dir activate sendWelcomeEmail defaultGroups rows).1.success.map
             (fun s => s.id))).1),
       (bulkImport dir activate sendWelcomeEmail defaultGroups rows).2 ++
        (if groupMappings.isEmpty then []
         else (assignUsersToGroups dir groupMappings
           ((bulkImport dir activate sendWelcomeEmail defaultGroups rows).1.success.map
             (fun s => s.id))).2) ++
        (if applicationIds.isEmpty then []
         else (provisionApplications dir applicationIds
           ((bulkImport dir activate sendWelcomeEmail defaultGroups rows).1.success.map
             (fun s => s.id))).2)) := by
  rcases rows with _ | ⟨r, rs⟩
  · exact absurd rfl hrows
  rcases hb : bulkImport dir activate sendWelcomeEmail defaultGroups (r :: rs) with ⟨imp, t1⟩
  have hne' : imp.success ≠ [] := by
    rw [hb] at hne
    exact hne
  have hie : imp.success.isEmpty = false := by
    cases hs2 : imp.success with
    | nil => exact absurd hs2 hne'
    | cons a as => rfl
  simp only [run_onboarding_workflow, List.isEmpty_cons, Bool.false_eq_true, if_false, hb,
    hie]
  by_cases hgm : groupMappings.isEmpty = true
  · by_cases hai : applicationIds.isEmpty = true
    · simp [hgm, hai]
    · rcases hpa : provisionApplications dir applicationIds
        (imp.success.map (fun s => s.id)) with ⟨ar, t3⟩
      simp [hgm, hai, hpa]
  · by_cases hai : applicationIds.isEmpty = true
    · rcases hga : assignUsersToGroups dir groupMappings
        (imp.success.map (fun s => s.id)) with ⟨gr, t2⟩
      simp [hgm, hai, hga]
    · rcases hga : assignUsersToGroups dir groupMappings
        (imp.success.map (fun s => s.id)) with ⟨gr, t2⟩
      rcases hpa : provisionApplications dir applicationIds
        (imp.success.map (fun s => s.id)) with ⟨ar, t3⟩
      simp [hgm, hai, hga, hpa]

/-- Attribute mapping used by the C6 and C10 witnesses. -/
def mapC6 : GroupMappings := [("department", [("Engineering", "G1")])]

/-- C6: if stage 1 produces zero successes the workflow aborts before stages 2
and 3 with the no-users text and only the import trace; otherwise the report
is `completed`, stages 2 and 3 (when configured) run over exactly the ids of
the stage-1 successes, and the keys of each stage report are a permutation of
those ids. -/
theorem C6_downstream_keys (dir : Dir) (rows : List Row) (activate : Bool)
    (defaultGroups : List String) (groupMappings : GroupMappings)
    (applicationIds : List String) (sendWelcomeEmail : Bool)
    (hrows : rows ≠ []) :
    ((bulkImport dir activate sendWelcomeEmail defaultGroups rows).1.success = [] →
      run_onboarding_workflow dir rows activate defaultGroups groupMappings
          applicationIds sendWelcomeEmail =
        (WorkflowOutcome.aborted
          (some (bulkImport dir activate sendWelcomeEmail defaultGroups rows).1)
          noUsersText,
         (bulkImport dir activate sendWelcomeEmail defaultGroups rows).2)) ∧
    ((bulkImport dir activate sendWelcomeEmail defaultGroups rows).1.success ≠ [] →
      (run_onboarding_workflow dir rows activate defaultGroups groupMappings
          applicationIds sendWelcomeEmail).1 =
        WorkflowOutcome.completed
          (bulkImport dir activate sendWelcomeEmail defaultGroups rows).1
          (if groupMappings.isEmpty then ⟨[], []⟩
           else (assignUsersToGroups dir groupMappings
             ((bulkImport dir activate sendWelcomeEmail defaultGroups rows).1.success.map
               (fun s => s.id))).1)
          (if applicationIds.isEmpty then ⟨[], []⟩
           else (provisionApplications dir applicationIds
             ((bulkImport dir activate sendWelcomeEmail defaultGroups rows).1.success.map
               (fun s => s.id))).1) ∧
      List.Perm
        ((assignUsersToGroups dir groupMappings
            ((bulkImport dir activate sendWelcomeEmail defaultGroups rows).1.success.map
              (fun s => s.id))).1.success.map (fun s => s.userId) ++
          (assignUsersToGroups dir groupMappings
            ((bulkImport dir activate sendWelcomeEmail defaultGroups rows).1.success.map
              (fun s => s.id))).1.failed.map (fun f => f.userId))
        ((bulkImport dir activate sendWelcomeEmail defaultGroups rows).1.success.map
          (fun s => s.id)) ∧
      List.Perm
        ((provisionApplications dir applicationIds
            ((bulkImport dir activate sendWelcomeEmail defaultGroups rows).1.success.map
              (fun s => s.id))).1.success.map (fun s => s.userId) ++
          (provisionApplications dir applicationIds
            ((bulkImport dir activate sendWelcomeEmail defaultGroups rows).1.success.map
              (fun s => s.id))).1.failed.map (fun f => f.userId))
        ((bulkImport dir activate sendWelcomeEmail defaultGroups rows).1.success.map
          (fun s => s.id))) := by
  refine ⟨fun hempty => ?_, fun hne => ?_⟩
  · rcases rows with _ | ⟨r, rs⟩
    · exact absurd rfl hrows
    rcases hb : bulkImport dir activate sendWelcomeEmail defaultGroups (r :: rs)
      with ⟨imp, t1⟩
    have hempty' : imp.success = [] := by
      rw [hb] at hempty
      exact hempty
    simp [run_onboarding_workflow, hb, hempty']
  · refine ⟨?_, assignUsersToGroups_keys_perm dir groupMappings _,
      provisionApplications_keys_perm dir applicationIds _⟩
    rw [run_workflow_completed dir rows activate defaultGroups groupMappings
      applicationIds sendWelcomeEmail hrows hne]

/-- C6 (witness): with one imported row, the stage-2 report keys are exactly
the created id. -/
theorem C6_downstream_keys_witness :
    List.Perm
      ((assignUsersToGroups dirC6 mapC6
          ((bulkImport dirC6 true true [] [rowAda]).1.success.map
            (fun s => s.id))).1.success.map (fun s => s.userId) ++
        (assignUsersToGroups dirC6 mapC6
          ((bulkImport dirC6 true true [] [rowAda]).1.success.map
            (fun s => s.id))).1.failed.map (fun f => f.userId))
      ((bulkImport dirC6 true true [] [rowAda]).1.success.map (fun s => s.id)) :=
  ((C6_downstream_keys dirC6 [rowAda] true [] mapC6 ["app1"] true
    (by decide)).2 (by decide)).2.1

/-- C10: with an empty mapping table the workflow runs no stage-2 directory
call and records empty stage-2 sequences; with an empty application list the
same holds of stage 3; the summary marks an unconfigured stage
`Not configured`. -/
theorem C10_not_configured (dir : Dir) (rows : List Row) (activate : Bool)
    (defaultGroups : List String) (groupMappings : GroupMappings)
    (applicationIds : List String) (sendWelcomeEmail : Bool)
    (hrows : rows ≠ [])
    (hne : (bulkImport dir activate sendWelcomeEmail defaultGroups rows).1.success ≠ []) :
    (run_onboarding_workflow dir rows activate defaultGroups [] applicationIds
        sendWelcomeEmail =
      (WorkflowOutcome.completed
        (bulkImport dir activate sendWelcomeEmail defaultGroups rows).1
        ⟨[], []⟩
        (if applicationIds.isEmpty then ⟨[], []⟩
         else (provisionApplications dir applicationIds
           ((bulkImport dir activate sendWelcomeEmail defaultGroups rows).1.success.map
             (fun s => s.id))).1),
       (bulkImport dir activate sendWelcomeEmail defaultGroups rows).2 ++
        (if applicationIds.isEmpty then []
         else (provisionApplications dir applicationIds
           ((bulkImport dir activate sendWelcomeEmail defaultGroups rows).1.success.map
             (fun s => s.id))).2))) ∧
    (run_onboarding_workflow dir rows activate defaultGroups groupMappings []
        sendWelcomeEmail =
      (WorkflowOutcome.completed
        (bulkImport dir activate sendWelcomeEmail defaultGroups rows).1
        (if groupMappings.isEmpty then ⟨[], []⟩
         else (assignUsersToGroups dir groupMappings
           ((bulkImport dir activate sendWelcomeEmail defaultGroups rows).1.success.map
             (fun s => s.id))).1)
        ⟨[], []⟩,
       (bulkImport dir activate sendWelcomeEmail defaultGroups rows).2 ++
        (if groupMappings.isEmpty then []
         else (assignUsersToGroups dir groupMappings
           ((bulkImport dir activate sendWelcomeEmail defaultGroups rows).1.success.map
             (fun s => s.id))).2))) ∧
    groupSummaryLine [] ⟨[], []⟩ = "• Group Assignment: Not configured" ∧
    appSummaryLine [] ⟨[], []⟩ = "• Application Provisioning: Not configured" := by
  refine ⟨?_, ?_, rfl, rfl⟩
  · rw [run_workflow_completed dir rows activate defaultGroups [] applicationIds
      sendWelcomeEmail hrows hne]
    simp
  · rw [run_workflow_completed dir rows activate defaultGroups groupMappings []
      sendWelcomeEmail hrows hne]
    simp

/-- C10 (witness): the concrete one-row workflow with an empty mapping table
runs only the import and the (configured) provisioning stage. -/
theorem C10_not_configured_witness :
    run_onboarding_workflow dirC6 [rowAda] true [] [] ["app1"] true =
      (WorkflowOutcome.completed
        (bulkImport dirC6 true true [] [rowAda]).1
        ⟨[], []⟩
        (if (["app1"] : List String).isEmpty then ⟨[], []⟩
         else (provisionApplications dirC6 ["app1"]
           ((bulkImport dirC6 true true [] [rowAda]).1.success.map
             (fun s => s.id))).1),
       (bulkImport dirC6 true true [] [rowAda]).2 ++
        (if (["app1"] : List String).isEmpty then []
         else (provisionApplications dirC6 ["app1"]
           ((bulkImport dirC6 true true [] [rowAda]).1.success.map
             (fun s => s.id))).2)) :=
  (C10_not_configured dirC6 [rowAda] true [] [] ["app1"] true
    (by decide) (by decide)).1

end OktaMCP
